import Mathlib

/-!
Shallow embedding of the real-time orchestration layer of a voice-driven
browser-automation agent: the audio volume meter, the playback scheduler,
the bounded activity log, the auto-reconnecting automation bridge, the
tool dispatcher with its pending-request registry and timeout, the local
simulation fallback, and the backend action handler.  Each definition is
annotated with the source location it embeds.
-/

namespace Spec2Proof

/-- JSON-like values used for tool results and wire messages. -/
inductive JValue where
  | jnull : JValue
  | jstr (s : String) : JValue
  | jbool (b : Bool) : JValue
  | jarr (items : List JValue) : JValue
  | jobj (fields : List (String × JValue)) : JValue

/-- First field with the given key of a JSON object, if any. -/
def JValue.getField : JValue → String → Option JValue
  | .jobj fields, key => (fields.find? (fun p => p.1 == key)).map (fun p => p.2)
  | _, _ => none

/-- String value of the given field, when present and a string. -/
def JValue.getFieldStr (v : JValue) (key : String) : Option String :=
  match v.getField key with
  | some (.jstr s) => some s
  | _ => none

/-- Whether the value is an object carrying the given field. -/
def JValue.hasField (v : JValue) (key : String) : Bool :=
  (v.getField key).isSome

/-- Calendar event record (src/types.ts, CalendarEvent). -/
structure CalendarEvent where
  id : String
  title : String
  time : String
  attendees : List String
deriving DecidableEq, Repr

/-- Email record (src/types.ts, Email); the source field named from is
rendered from_ because Lean reserves that word. -/
structure Email where
  id : String
  from_ : String
  subject : String
  preview : String
  time : String
  read : Bool
deriving DecidableEq, Repr

/-- Log entry kind (src/types.ts, LogEntry.type). -/
inductive LogType where
  | info
  | tool
  | error
  | success
deriving DecidableEq, Repr

/-- One activity-log entry (src/types.ts, LogEntry); the timestamp is
abstracted to a natural number. -/
structure LogEntry where
  timestamp : Nat
  message : String
  type : LogType
deriving DecidableEq, Repr

/-- addLog (src/hooks/useLiveAPI.ts lines 102-104):
setLogs(prev => [...prev.slice(-4), entry]).  JavaScript slice(-4) keeps the
last (up to) four entries, here List.drop of all but the last four. -/
def addLog (logs : List LogEntry) (e : LogEntry) : List LogEntry :=
  logs.drop (logs.length - 4) ++ [e]

/-- Root-mean-square of one captured audio frame
(scriptProcessor.onaudioprocess, src/hooks/useLiveAPI.ts lines 276-283). -/
noncomputable def rmsOf (frame : List ℝ) : ℝ :=
  Real.sqrt ((frame.map (fun x => x * x)).sum / frame.length)

/-- Published loudness value (src/hooks/useLiveAPI.ts line 284):
setVolume(Math.min(1, rms * 5)). -/
noncomputable def volumeOf (frame : List ℝ) : ℝ :=
  min 1 (rmsOf frame * 5)

/-- Fixed reconnect delay in milliseconds (src/hooks/useLiveAPI.ts
lines 121 and 149). -/
def RECONNECT_DELAY_MS : Nat := 3000

/-- Automation-bridge connection state: the isConnected flag of Browser State
together with the delay of the pending reconnect timer, if one is scheduled. -/
structure BridgeConn where
  isConnected : Bool
  reconnectTimer : Option Nat
deriving DecidableEq, Repr

/-- Events observed by connectToBrowser (src/hooks/useLiveAPI.ts
lines 108-151): ws.onopen, ws.onclose, and the constructor throwing. -/
inductive BridgeEv where
  | opened
  | closed
  | openThrew
deriving DecidableEq, Repr

/-- Transition of the bridge connection state: ws.onopen marks connected and
cancels any pending reconnect timer (lines 112-116); ws.onclose marks
disconnected and schedules one reconnect after 3000 ms (lines 118-122); a
throwing constructor only schedules the 3000 ms reconnect (lines 148-150). -/
def bridgeStep (st : BridgeConn) (ev : BridgeEv) : BridgeConn :=
  match ev with
  | .opened => { isConnected := true, reconnectTimer := none }
  | .closed => { isConnected := false, reconnectTimer := some RECONNECT_DELAY_MS }
  | .openThrew => { st with reconnectTimer := some RECONNECT_DELAY_MS }

/-- Playback scheduling (src/hooks/useLiveAPI.ts lines 311-333).  Each inbound
audio chunk is paired with the output clock's currentTime observed at enqueue
and the decoded buffer's duration; the code sets
nextStartTime = max(nextStartTime, currentTime), starts the source there, and
then advances nextStartTime by the duration.  Returns the scheduled
(start, duration) pairs in arrival order. -/
def runSched (cursor : ℚ) : List (ℚ × ℚ) → List (ℚ × ℚ)
  | [] => []
  | (now, d) :: rest =>
    let start := max cursor now
    (start, d) :: runSched (start + d) rest

/-- Value of the nextStartTime cursor after scheduling the given chunks. -/
def runSchedCursor (cursor : ℚ) : List (ℚ × ℚ) → ℚ
  | [] => cursor
  | (now, d) :: rest => runSchedCursor (max cursor now + d) rest

/-- Argument bag of a tool call, mirroring the JavaScript args object; an
absent field is none. -/
structure Args where
  date : Option String := none
  title : Option String := none
  time : Option String := none
  attendees : Option String := none
  to_ : Option String := none
  subject : Option String := none
  message : Option String := none
deriving DecidableEq, Repr

/-- JavaScript x || dflt on an optional string: undefined and the empty
string are falsy. -/
def jsOr (o : Option String) (dflt : String) : String :=
  match o with
  | some s => if s = "" then dflt else s
  | none => dflt

/-- JavaScript truthiness of an optional string. -/
def jsTruthy (o : Option String) : Bool :=
  match o with
  | some s => s != ""
  | none => false

/-- JavaScript template-literal rendering of a possibly-undefined string. -/
def jsStr (o : Option String) : String := o.getD "undefined"

/-- JSON rendering of a possibly-absent string (undefined field value). -/
def JValue.ofOptStr : Option String → JValue
  | some s => .jstr s
  | none => .jnull

/-- JSON rendering of a calendar event. -/
def eventJson (e : CalendarEvent) : JValue :=
  .jobj [("id", .jstr e.id), ("title", .jstr e.title), ("time", .jstr e.time),
    ("attendees", .jarr (e.attendees.map JValue.jstr))]

/-- JSON rendering of an email. -/
def emailJson (e : Email) : JValue :=
  .jobj [("id", .jstr e.id), ("from", .jstr e.from_),
    ("subject", .jstr e.subject), ("preview", .jstr e.preview),
    ("time", .jstr e.time), ("read", .jbool e.read)]

/-- Action-request message sent over the bridge
({type: "action", id, tool, args}, src/hooks/useLiveAPI.ts lines 174-179). -/
structure ActionMsg where
  id : String
  tool : String
  args : Args
deriving DecidableEq, Repr

/-- Messages the backend sends to the frontend (src/server/index.js):
url_change, log, tool_result, and screenshot (its captured JPEG data). -/
inductive OutMsg where
  | url_change (url : String)
  | log (message : String)
  | tool_result (id : String) (result : JValue)
  | screenshot (data : String)

/-- Backend-held collections (src/server/index.js lines 110-118). -/
structure ServerState where
  currentEvents : List CalendarEvent
  currentEmails : List Email

/-- Initial backend events (src/server/index.js lines 110-113). -/
def initialEvents : List CalendarEvent :=
  [⟨"1", "Team Sync", "10:00 AM", ["Alice", "Bob"]⟩,
   ⟨"2", "Lunch with Sarah", "12:30 PM", ["Sarah"]⟩]

/-- Initial backend emails (src/server/index.js lines 115-118). -/
def initialEmails : List Email :=
  [⟨"1", "Boss", "Project Update", "Can we sync later today?", "9:05 AM", false⟩,
   ⟨"2", "Newsletter", "Weekly Digest", "Top stories in tech this week...", "8:00 AM", true⟩]

/-- New event built by the bookMeeting branch (src/server/index.js
lines 170-175); now stands for Date.now().toString(). -/
def newEventOf (now : String) (args : Args) : CalendarEvent :=
  { id := now
  , title := jsOr args.title "New Meeting"
  , time := jsOr args.time "Next Hour"
  , attendees :=
      if jsTruthy args.attendees then (args.attendees.getD "").splitOn ","
      else ["You"] }

/-- Backend handler for one action message (src/server/index.js
lines 148-202): selects the branch by tool name, may mutate the backend
collections, emits url_change/log messages, then the tool_result when the
correlation id is truthy, then a screenshot.  shot stands for the JPEG the
trailing sendScreenshot captures. -/
def serverHandleAction (data : ActionMsg) (st : ServerState)
    (now shot : String) : ServerState × List OutMsg :=
  let step : ServerState × List OutMsg × JValue :=
    if data.tool = "openCalendar" ∨ data.tool = "checkAvailability" then
      (st, [.url_change "https://calendar.agent/view"],
        .jobj [("events", .jarr (st.currentEvents.map eventJson))])
    else if data.tool = "openEmail" then
      (st, [.url_change "https://mail.agent/inbox"],
        .jobj [("emails", .jarr (st.currentEmails.map emailJson))])
    else if data.tool = "bookMeeting" then
      let newEvent := newEventOf now data.args
      ({ st with currentEvents := st.currentEvents ++ [newEvent] },
        [.log ("Booked meeting: " ++ newEvent.title)],
        .jobj [("status", .jstr "success"), ("bookedEvent", eventJson newEvent)])
    else if data.tool = "sendEmail" then
      (st, [.log ("Email sent to " ++ jsStr data.args.to_)],
        .jobj [("status", .jstr "success"), ("sentTo", JValue.ofOptStr data.args.to_)])
    else
      (st, [], .jobj [("status", .jstr "success")])
  (step.1,
    step.2.1 ++
      (if data.id ≠ "" then [OutMsg.tool_result data.id step.2.2] else []) ++
      [OutMsg.screenshot shot])

/-- Frontend projection of Browser State (src/types.ts, BrowserState, plus
the isConnected and screenshot fields the bridge handlers set). -/
structure BrowserStateM where
  isConnected : Bool
  url : String
  page : String
  isLoading : Bool
  calendarEvents : List CalendarEvent
  emails : List Email
  screenshot : Option String

/-- Frontend-side dispatcher state: Browser State, the ids registered in the
pending-request map, and the promise resolutions (id, value) in order. -/
structure FrontState where
  browser : BrowserStateM
  pending : List String
  resolutions : List (String × JValue)

/-- ws.onmessage of the bridge (src/hooks/useLiveAPI.ts lines 124-145):
screenshot updates the snapshot and clears loading; url_change updates the
url; log only appends an activity entry; tool_result resolves and removes
the matching pending request, if any. -/
def onBridgeMessage (fs : FrontState) (m : OutMsg) : FrontState :=
  match m with
  | .screenshot data =>
    { fs with browser :=
        { fs.browser with screenshot := some data, isLoading := false } }
  | .url_change u => { fs with browser := { fs.browser with url := u } }
  | .log _ => fs
  | .tool_result id r =>
    if fs.pending.contains id then
      { fs with
          pending := fs.pending.erase id,
          resolutions := fs.resolutions ++ [(id, r)] }
    else fs

/-- Outcome of one executeTool dispatch: with the bridge open the promise
stays pending on the registered correlation id; otherwise the simulation
resolves after the fixed artificial delay. -/
inductive DispatchOutcome where
  | pendingOnBridge (requestId : String)
  | simulated (delayMs : Nat) (result : JValue)

/-- Fixed simulated latency in milliseconds (src/hooks/useLiveAPI.ts
line 193). -/
def SIM_DELAY_MS : Nat := 800

/-- Known tool catalog (src/hooks/useLiveAPI.ts TOOLS, lines 22-70). -/
def knownTools : List String :=
  ["openCalendar", "openEmail", "checkAvailability", "bookMeeting", "sendEmail"]

/-- Simulation fallback switch (src/hooks/useLiveAPI.ts lines 195-224),
applied to the browser state after the dispatch prelude set isLoading. -/
def simSwitch (name : String) (args : Args) (s : BrowserStateM) :
    BrowserStateM × JValue :=
  if name = "openCalendar" then
    ({ s with
        page := "calendar",
        url := "https://calendar.agent/view",
        isLoading := false },
      .jobj [("events", .jarr
        [eventJson ⟨"1", "Team Sync (Simulated)", "10:00 AM", ["Alice", "Bob"]⟩])])
  else if name = "openEmail" then
    ({ s with
        page := "email",
        url := "https://mail.agent/inbox",
        isLoading := false },
      .jobj [("emails", .jarr
        [emailJson ⟨"1", "Boss", "Simulated Email", "This is a fake email.", "9:00 AM", false⟩])])
  else if name = "checkAvailability" then
    ({ s with
        page := "calendar",
        url := "https://calendar.agent/view",
        isLoading := false },
      .jobj [("events", .jarr
        [eventJson ⟨"1", "Team Sync", "10:00 AM", ["Alice", "Bob"]⟩])])
  else if name = "bookMeeting" then
    (s, .jobj [("status", .jstr "success"), ("booked", JValue.ofOptStr args.title)])
  else if name = "sendEmail" then
    ({ s with
        page := "email",
        url := "https://mail.agent/sent",
        isLoading := false },
      .jobj [("status", .jstr "success"), ("sentTo", JValue.ofOptStr args.to_)])
  else
    ({ s with isLoading := false },
      .jobj [("status", .jstr "error"), ("message", .jstr "Tool not found")])

/-- One executeTool dispatch (src/hooks/useLiveAPI.ts lines 161-227):
marks loading, then either sends the action message over the open bridge
socket and leaves the promise pending on the fresh correlation id, or sends
nothing and runs the simulation after the 800 ms delay.  connected reflects
ws.readyState being OPEN; freshId stands for the random correlation id.
Returns the action messages sent on the socket, the browser state after the
synchronous part, and the outcome. -/
def executeTool (connected : Bool) (freshId : String) (name : String)
    (args : Args) (s : BrowserStateM) :
    List ActionMsg × BrowserStateM × DispatchOutcome :=
  let s1 := { s with isLoading := true }
  if connected then
    ([⟨freshId, name, args⟩], s1, .pendingOnBridge freshId)
  else
    let sr := simSwitch name args s1
    ([], sr.1, .simulated SIM_DELAY_MS sr.2)

/-- Timeout window for a dispatched request in milliseconds
(src/hooks/useLiveAPI.ts line 188). -/
def TOOL_TIMEOUT_MS : Nat := 5000

/-- Synthesized result the timeout path resolves with
(src/hooks/useLiveAPI.ts line 185). -/
def timeoutResult : JValue :=
  .jobj [("status", .jstr "error"), ("message", .jstr "Browser timed out")]

/-- Lifecycle state of one pending tool request: whether its id is still in
the pending map, the resolutions of its promise so far, and the loading
flag. -/
structure ReqState where
  pending : Bool
  resolutions : List JValue
  isLoading : Bool

/-- Events affecting one dispatched request, in time order: a matching
tool_result message, or the firing of its 5000 ms safety timeout. -/
inductive ReqEv where
  | result (r : JValue)
  | timeoutFire

/-- Handler behavior (src/hooks/useLiveAPI.ts lines 134-141 and 182-188):
a matching tool_result resolves the promise and deletes the entry only if
the id is still pending; the timeout callback, if the entry is still
pending, deletes it, resolves with the synthesized error, and clears the
loading flag. -/
def reqStep (st : ReqState) (ev : ReqEv) : ReqState :=
  match ev with
  | .result r =>
    if st.pending then
      { st with pending := false, resolutions := st.resolutions ++ [r] }
    else st
  | .timeoutFire =>
    if st.pending then
      { pending := false, resolutions := st.resolutions ++ [timeoutResult],
        isLoading := false }
    else st

/-- State of a request immediately after dispatch: registered in the
pending map, no resolution yet, loading shown. -/
def reqInit : ReqState :=
  { pending := true, resolutions := [], isLoading := true }

/-- Lifecycle of one dispatched request: fold its time-ordered events. -/
def reqRun (evs : List ReqEv) : ReqState := evs.foldl reqStep reqInit

/-- One named function call of a tool-call event
(message.toolCall.functionCalls). -/
structure FnCall where
  id : String
  name : String
deriving DecidableEq, Repr

/-- Observable steps of the tool-call loop of the session's onmessage. -/
inductive SessionEv where
  | dispatched (callId : String) (name : String)
  | resolved (callId : String)
  | responded (callId : String) (name : String)
deriving DecidableEq, Repr

/-- The onmessage tool-call loop (src/hooks/useLiveAPI.ts lines 296-309):
for each call of the event in order, executeTool is dispatched and awaited
to resolution, then the tool response carrying that same call's id is
sent. -/
def processToolCalls : List FnCall → List SessionEv
  | [] => []
  | fc :: rest =>
    .dispatched fc.id fc.name :: .resolved fc.id :: .responded fc.id fc.name ::
      processToolCalls rest

/-- End-to-end connected dispatch: the frontend dispatch sends its action
messages, the backend handles each, and the frontend processes every
backend output in order.  Returns the final backend state and the final
frontend state. -/
def connectedRoundTrip (freshId name : String) (args : Args)
    (s : BrowserStateM) (srv : ServerState) (now shot : String) :
    ServerState × FrontState :=
  let et := executeTool true freshId name args s
  let pend : List String :=
    match et.2.2 with
    | .pendingOnBridge id => [id]
    | .simulated _ _ => []
  let start : FrontState := { browser := et.2.1, pending := pend, resolutions := [] }
  et.1.foldl (fun acc msg =>
    let srvOut := serverHandleAction msg acc.1 now shot
    (srvOut.1, srvOut.2.foldl onBridgeMessage acc.2)) (srv, start)

/-- Initial frontend Browser State (src/hooks/useLiveAPI.ts lines 78-85). -/
def initialBrowserState : BrowserStateM :=
  { isConnected := false
  , url := "about:blank"
  , page := "dashboard"
  , isLoading := false
  , calendarEvents := []
  , emails := []
  , screenshot := none }

/-- Initial backend state, holding the initial collections. -/
def initialServerState : ServerState :=
  { currentEvents := initialEvents, currentEmails := initialEmails }

/-- A browser state already showing the email view and inbox url. -/
def emailViewState : BrowserStateM :=
  { initialBrowserState with
      page := "email",
      url := "https://mail.agent/inbox" }

/-- Whether a request event is a tool_result delivery (rather than the
firing of the safety timeout). -/
def isResultEv : ReqEv → Bool
  | .result _ => true
  | .timeoutFire => false

/-- Payload of the first tool_result delivery in the event list, if any. -/
def firstPayload : List ReqEv → Option JValue
  | [] => none
  | .result r :: _ => some r
  | .timeoutFire :: rest => firstPayload rest

theorem runSched_cons (cursor now d : ℚ) (rest : List (ℚ × ℚ)) :
    runSched cursor ((now, d) :: rest) =
      (max cursor now, d) :: runSched (max cursor now + d) rest := rfl

theorem runSchedCursor_cons (cursor now d : ℚ) (rest : List (ℚ × ℚ)) :
    runSchedCursor cursor ((now, d) :: rest) =
      runSchedCursor (max cursor now + d) rest := rfl

theorem runSched_length (chunks : List (ℚ × ℚ)) (cursor : ℚ) :
    (runSched cursor chunks).length = chunks.length := by
  induction chunks generalizing cursor with
  | nil => rfl
  | cons c rest ih =>
    obtain ⟨now, d⟩ := c
    rw [runSched_cons]
    simp [ih]

theorem runSched_head_ge (rest : List (ℚ × ℚ)) (c : ℚ) (s d : ℚ)
    (h : (runSched c rest)[0]? = some (s, d)) : c ≤ s := by
  cases rest with
  | nil => simp [runSched] at h
  | cons hd tl =>
    obtain ⟨now, d0⟩ := hd
    rw [runSched_cons, List.getElem?_cons_zero] at h
    injection h with h
    rw [Prod.mk.injEq] at h
    rw [← h.1]
    exact le_max_left _ _

theorem runSched_step_mono (chunks : List (ℚ × ℚ)) (cursor : ℚ) (k : Nat)
    (s d s' d' : ℚ) (h1 : (runSched cursor chunks)[k]? = some (s, d))
    (h2 : (runSched cursor chunks)[k + 1]? = some (s', d')) :
    s + d ≤ s' := by
  induction chunks generalizing cursor k with
  | nil => simp [runSched] at h1
  | cons hd tl ih =>
    obtain ⟨now, d0⟩ := hd
    rw [runSched_cons] at h1 h2
    cases k with
    | zero =>
      rw [List.getElem?_cons_zero] at h1
      rw [List.getElem?_cons_succ] at h2
      injection h1 with h1
      rw [Prod.mk.injEq] at h1
      obtain ⟨hs, hd⟩ := h1
      subst hs; subst hd
      exact runSched_head_ge tl _ s' d' h2
    | succ k =>
      rw [List.getElem?_cons_succ] at h1 h2
      exact ih _ _ h1 h2

theorem runSched_pointwise (chunks : List (ℚ × ℚ)) (cursor : ℚ) (k : Nat)
    (c : ℚ × ℚ) (hc : chunks[k]? = some c) :
    ∃ s, (runSched cursor chunks)[k]? = some (s, c.2) ∧ c.1 ≤ s ∧
      runSchedCursor cursor (chunks.take (k + 1)) = s + c.2 := by
  induction chunks generalizing cursor k with
  | nil => simp at hc
  | cons hd tl ih =>
    obtain ⟨now0, d0⟩ := hd
    cases k with
    | zero =>
      rw [List.getElem?_cons_zero] at hc
      injection hc with hc
      subst hc
      refine ⟨max cursor now0, ?_, le_max_right _ _, ?_⟩
      · rw [runSched_cons, List.getElem?_cons_zero]
      · rw [List.take_succ_cons, List.take_zero, runSchedCursor_cons]
        rfl
    | succ k =>
      rw [List.getElem?_cons_succ] at hc
      obtain ⟨s, hs, hns, hcur⟩ := ih (max cursor now0 + d0) k hc
      refine ⟨s, ?_, hns, ?_⟩
      · rw [runSched_cons, List.getElem?_cons_succ]
        exact hs
      · rw [List.take_succ_cons, runSchedCursor_cons]
        exact hcur

theorem addLog_length_le (logs : List LogEntry) (e : LogEntry) :
    (addLog logs e).length ≤ 5 := by
  simp [addLog]
  omega

theorem foldl_addLog_le (es : List LogEntry) (acc : List LogEntry)
    (h : acc.length ≤ 5) : (es.foldl addLog acc).length ≤ 5 := by
  induction es generalizing acc with
  | nil => simpa using h
  | cons e rest ih =>
    rw [List.foldl_cons]
    exact ih _ (addLog_length_le _ _)

/-- C10: addLog keeps at most the 4 most recent prior entries and appends
the new one, so the log never holds more than 5 entries and the newest
entry is last; folding any sequence of addLog calls from the empty log
stays within 5 entries. -/
theorem activity_log_bounded (logs : List LogEntry) (e : LogEntry)
    (es : List LogEntry) :
    (addLog logs e).length ≤ 5 ∧ (addLog logs e).getLast? = some e ∧
    (es.foldl addLog []).length ≤ 5 := by
  refine ⟨addLog_length_le logs e, ?_, foldl_addLog_le es [] (by simp)⟩
  simp [addLog]

/-- C8: the published loudness equals min(1, rms x 5) for the
root-mean-square rms of the frame's samples, lies in [0,1] for every
frame, and an all-zero frame yields loudness 0. -/
theorem volume_meter_spec (frame : List ℝ) (n : Nat) :
    volumeOf frame =
      min 1 (Real.sqrt ((frame.map (fun x => x * x)).sum / frame.length) * 5) ∧
    0 ≤ volumeOf frame ∧ volumeOf frame ≤ 1 ∧
    volumeOf (List.replicate n 0) = 0 := by
  refine ⟨rfl, ?_, min_le_left _ _, ?_⟩
  · have h1 : 0 ≤ rmsOf frame := Real.sqrt_nonneg _
    have h2 : 0 ≤ rmsOf frame * 5 := by linarith
    exact le_min zero_le_one h2
  · unfold volumeOf rmsOf
    simp

/-- C6: a close event marks the bridge disconnected and schedules exactly
one reconnect timer with the fixed 3000 ms delay; a failure to open, which
occurs only while disconnected, likewise leaves the bridge disconnected
with one 3000 ms timer scheduled; a successful open marks it connected and
cancels any pending reconnect timer. -/
theorem bridge_reconnect_policy (st : BridgeConn)
    (h : st.isConnected = false) :
    (bridgeStep st .closed).isConnected = false ∧
    (bridgeStep st .closed).reconnectTimer = some 3000 ∧
    (bridgeStep st .openThrew).isConnected = false ∧
    (bridgeStep st .openThrew).reconnectTimer = some 3000 ∧
    (bridgeStep st .opened).isConnected = true ∧
    (bridgeStep st .opened).reconnectTimer = none := by
  refine ⟨rfl, rfl, ?_, rfl, rfl, rfl⟩
  simpa [bridgeStep] using h

/-- Witness: bridge_reconnect_policy at the initial disconnected state. -/
theorem bridge_reconnect_policy_witness :
    (bridgeStep ⟨false, none⟩ .closed).isConnected = false ∧
    (bridgeStep ⟨false, none⟩ .closed).reconnectTimer = some 3000 ∧
    (bridgeStep ⟨false, none⟩ .openThrew).isConnected = false ∧
    (bridgeStep ⟨false, none⟩ .openThrew).reconnectTimer = some 3000 ∧
    (bridgeStep ⟨false, none⟩ .opened).isConnected = true ∧
    (bridgeStep ⟨false, none⟩ .opened).reconnectTimer = none :=
  bridge_reconnect_policy ⟨false, none⟩ rfl

/-- C4: for chunks with output-clock readings and durations processed in
arrival order, the k-th scheduled start is at least the clock reading at
its enqueue, the timeline cursor after scheduling it equals its start plus
exactly its duration, and the next chunk's start is at least this chunk's
scheduled end, so playback is non-overlapping, gapless beyond the larger
bound, and order-preserving. -/
theorem playback_scheduling (cursor : ℚ) (chunks : List (ℚ × ℚ)) (k : Nat)
    (c : ℚ × ℚ) (hc : chunks[k]? = some c) :
    ∃ s, (runSched cursor chunks)[k]? = some (s, c.2) ∧ c.1 ≤ s ∧
      runSchedCursor cursor (chunks.take (k + 1)) = s + c.2 ∧
      ∀ s' d', (runSched cursor chunks)[k + 1]? = some (s', d') →
        s + c.2 ≤ s' := by
  obtain ⟨s, hs, hcs, hcur⟩ := runSched_pointwise chunks cursor k c hc
  exact ⟨s, hs, hcs, hcur,
    fun s' d' h2 => runSched_step_mono chunks cursor k s c.2 s' d' hs h2⟩

/-- Witness: playback_scheduling on two concrete chunks. -/
theorem playback_scheduling_witness :
    ∃ s, (runSched 0 [((0 : ℚ), 1), (0, 2)])[0]? = some (s, 1) ∧
      (0 : ℚ) ≤ s ∧
      runSchedCursor 0 ([((0 : ℚ), 1), (0, 2)].take 1) = s + 1 ∧
      ∀ s' d', (runSched 0 [((0 : ℚ), 1), (0, 2)])[1]? = some (s', d') →
        s + 1 ≤ s' :=
  playback_scheduling 0 [((0 : ℚ), 1), (0, 2)] 0 (0, 1) rfl

theorem foldl_reqStep_stuck (evs : List ReqEv) (st : ReqState)
    (hp : st.pending = false) : evs.foldl reqStep st = st := by
  induction evs generalizing st with
  | nil => rfl
  | cons e rest ih =>
    rw [List.foldl_cons]
    have he : reqStep st e = st := by
      cases e <;> simp [reqStep, hp]
    rw [he]
    exact ih st hp

theorem foldl_pre_results (pre : List ReqEv)
    (hall : pre.all isResultEv = true) :
    (firstPayload pre = none ∧ pre.foldl reqStep reqInit = reqInit) ∨
    (∃ r, firstPayload pre = some r ∧
      pre.foldl reqStep reqInit =
        { pending := false, resolutions := [r], isLoading := true }) := by
  cases pre with
  | nil => exact Or.inl ⟨rfl, rfl⟩
  | cons e rest =>
    cases e with
    | result r =>
      refine Or.inr ⟨r, rfl, ?_⟩
      rw [List.foldl_cons]
      have h1 : reqStep reqInit (.result r) =
          { pending := false, resolutions := [r], isLoading := true } := rfl
      rw [h1]
      exact foldl_reqStep_stuck rest _ rfl
    | timeoutFire =>
      simp [List.all_cons, isResultEv] at hall

/-- C1 (amended): for a dispatched request whose 5000 ms safety timeout
fires once, with matching replies arriving before it (pre) and after it
(post), the registered callback fires exactly once: with the first
in-window reply when one exists, and otherwise with the synthesized error
result carrying status "error" and message "Browser timed out", in which
case the entry is removed and the loading indicator cleared; replies
arriving after the timeout never resolve the promise again. -/
theorem dispatch_exactly_once (pre post : List ReqEv)
    (hpre : pre.all isResultEv = true) (_hpost : post.all isResultEv = true) :
    TOOL_TIMEOUT_MS = 5000 ∧
    (reqRun (pre ++ ReqEv.timeoutFire :: post)).pending = false ∧
    (reqRun (pre ++ ReqEv.timeoutFire :: post)).resolutions.length = 1 ∧
    (∀ r, firstPayload pre = some r →
      (reqRun (pre ++ ReqEv.timeoutFire :: post)).resolutions = [r]) ∧
    (firstPayload pre = none →
      (reqRun (pre ++ ReqEv.timeoutFire :: post)).resolutions = [timeoutResult] ∧
      (reqRun (pre ++ ReqEv.timeoutFire :: post)).isLoading = false) := by
  have hrun : reqRun (pre ++ ReqEv.timeoutFire :: post) =
      post.foldl reqStep (reqStep (pre.foldl reqStep reqInit) .timeoutFire) := by
    rw [reqRun, List.foldl_append, List.foldl_cons]
  rcases foldl_pre_results pre hpre with ⟨hfp, hpre1⟩ | ⟨r, hfp, hpre1⟩
  · rw [hrun, hpre1]
    have h1 : reqStep reqInit .timeoutFire =
        { pending := false, resolutions := [timeoutResult],
          isLoading := false } := rfl
    rw [h1, foldl_reqStep_stuck post _ rfl]
    refine ⟨rfl, rfl, rfl, ?_, fun _ => ⟨rfl, rfl⟩⟩
    intro r hr
    rw [hfp] at hr
    exact Option.noConfusion hr
  · rw [hrun, hpre1]
    have h1 : reqStep
        { pending := false, resolutions := [r], isLoading := true }
        .timeoutFire =
        { pending := false, resolutions := [r], isLoading := true } := rfl
    rw [h1, foldl_reqStep_stuck post _ rfl]
    refine ⟨rfl, rfl, rfl, ?_, ?_⟩
    · intro r2 hr2
      rw [hfp] at hr2
      injection hr2 with hr2
      rw [hr2]
    · intro hn
      rw [hfp] at hn
      exact Option.noConfusion hn

/-- Witness: dispatch_exactly_once with no reply inside the window and one
late reply after the timeout. -/
theorem dispatch_exactly_once_witness :
    TOOL_TIMEOUT_MS = 5000 ∧
    (reqRun ([] ++ ReqEv.timeoutFire :: [ReqEv.result (.jstr "late")])).pending = false ∧
    (reqRun ([] ++ ReqEv.timeoutFire :: [ReqEv.result (.jstr "late")])).resolutions.length = 1 ∧
    (∀ r, firstPayload [] = some r →
      (reqRun ([] ++ ReqEv.timeoutFire :: [ReqEv.result (.jstr "late")])).resolutions = [r]) ∧
    (firstPayload [] = none →
      (reqRun ([] ++ ReqEv.timeoutFire :: [ReqEv.result (.jstr "late")])).resolutions = [timeoutResult] ∧
      (reqRun ([] ++ ReqEv.timeoutFire :: [ReqEv.result (.jstr "late")])).isLoading = false) :=
  dispatch_exactly_once [] [ReqEv.result (.jstr "late")] rfl rfl

/-- C1 counterexample: when no matching reply arrives within the window the
promise resolves with message "Browser timed out", not "timed out" as the
claim states. -/
theorem dispatch_timeout_message_cex :
    (reqRun [ReqEv.timeoutFire]).resolutions.length = 1 ∧
    ((reqRun [ReqEv.timeoutFire]).resolutions.headD .jnull).getFieldStr "status" =
      some "error" ∧
    ((reqRun [ReqEv.timeoutFire]).resolutions.headD .jnull).getFieldStr "message" =
      some "Browser timed out" ∧
    some "Browser timed out" ≠ some "timed out" := by
  refine ⟨rfl, rfl, rfl, by decide⟩

theorem processToolCalls_length (fcs : List FnCall) :
    (processToolCalls fcs).length = 3 * fcs.length := by
  induction fcs with
  | nil => rfl
  | cons fc rest ih =>
    simp only [processToolCalls, List.length_cons, ih]
    ring

theorem processToolCalls_get (fcs : List FnCall) (k : Nat) (fc : FnCall)
    (hk : fcs[k]? = some fc) :
    (processToolCalls fcs)[3 * k]? = some (.dispatched fc.id fc.name) ∧
    (processToolCalls fcs)[3 * k + 1]? = some (.resolved fc.id) ∧
    (processToolCalls fcs)[3 * k + 2]? = some (.responded fc.id fc.name) := by
  induction fcs generalizing k with
  | nil => simp at hk
  | cons hd rest ih =>
    cases k with
    | zero =>
      rw [List.getElem?_cons_zero] at hk
      injection hk with hk
      subst hk
      refine ⟨?_, ?_, ?_⟩ <;> simp [processToolCalls]
    | succ k =>
      rw [List.getElem?_cons_succ] at hk
      obtain ⟨h1, h2, h3⟩ := ih k hk
      have e1 : 3 * (k + 1) = 3 * k + 1 + 1 + 1 := by ring
      have e2 : 3 * (k + 1) + 1 = 3 * k + 1 + 1 + 1 + 1 := by ring
      have e3 : 3 * (k + 1) + 2 = 3 * k + 2 + 1 + 1 + 1 := by ring
      refine ⟨?_, ?_, ?_⟩
      · rw [e1]
        simp only [processToolCalls, List.getElem?_cons_succ]
        exact h1
      · rw [e2]
        simp only [processToolCalls, List.getElem?_cons_succ]
        exact h2
      · rw [e3]
        simp only [processToolCalls, List.getElem?_cons_succ]
        exact h3

/-- C5 (amended): the calls of one tool-call event are processed strictly
sequentially: the k-th call occupies trace positions 3k, 3k+1, 3k+2 —
dispatch, resolution, response — so each call's dispatch waits for the
previous call's resolution and responses are sent in call order; each
response does carry exactly its own call's identifier. -/
theorem toolcalls_sequential (fcs : List FnCall) (k : Nat) (fc : FnCall)
    (hk : fcs[k]? = some fc) :
    (processToolCalls fcs).length = 3 * fcs.length ∧
    (processToolCalls fcs)[3 * k]? = some (.dispatched fc.id fc.name) ∧
    (processToolCalls fcs)[3 * k + 1]? = some (.resolved fc.id) ∧
    (processToolCalls fcs)[3 * k + 2]? = some (.responded fc.id fc.name) := by
  obtain ⟨h1, h2, h3⟩ := processToolCalls_get fcs k fc hk
  exact ⟨processToolCalls_length fcs, h1, h2, h3⟩

/-- Witness: toolcalls_sequential at the second call of a two-call event. -/
theorem toolcalls_sequential_witness :
    (processToolCalls [⟨"c1", "openCalendar"⟩, ⟨"c2", "openEmail"⟩]).length =
      3 * [FnCall.mk "c1" "openCalendar", FnCall.mk "c2" "openEmail"].length ∧
    (processToolCalls [⟨"c1", "openCalendar"⟩, ⟨"c2", "openEmail"⟩])[3 * 1]? =
      some (.dispatched "c2" "openEmail") ∧
    (processToolCalls [⟨"c1", "openCalendar"⟩, ⟨"c2", "openEmail"⟩])[3 * 1 + 1]? =
      some (.resolved "c2") ∧
    (processToolCalls [⟨"c1", "openCalendar"⟩, ⟨"c2", "openEmail"⟩])[3 * 1 + 2]? =
      some (.responded "c2" "openEmail") :=
  toolcalls_sequential [⟨"c1", "openCalendar"⟩, ⟨"c2", "openEmail"⟩] 1
    ⟨"c2", "openEmail"⟩ rfl

/-- C5 counterexample: for an event carrying two calls, the second call's
dispatch appears in the trace strictly after the first call's resolution,
so the dispatch of one call does wait on the resolution of the other. -/
theorem toolcalls_not_independent_cex :
    SessionEv.resolved "c1" ∈
      processToolCalls [⟨"c1", "openCalendar"⟩, ⟨"c2", "openEmail"⟩] ∧
    SessionEv.dispatched "c2" "openEmail" ∈
      processToolCalls [⟨"c1", "openCalendar"⟩, ⟨"c2", "openEmail"⟩] ∧
    (processToolCalls [⟨"c1", "openCalendar"⟩, ⟨"c2", "openEmail"⟩]).indexOf
        (SessionEv.resolved "c1") <
      (processToolCalls [⟨"c1", "openCalendar"⟩, ⟨"c2", "openEmail"⟩]).indexOf
        (SessionEv.dispatched "c2" "openEmail") := by
  refine ⟨?_, ?_, ?_⟩ <;> decide

/-- C9: the backend handles checkAvailability identically to openCalendar
for any arguments, in particular for any two date values, and returns the
full unfiltered event collection in its tool_result; the simulation path
returns the same fixed canned event list for every date. -/
theorem checkAvailability_ignores_date (st : ServerState)
    (id now shot : String) (hid : id ≠ "") (a b : Args) (s : BrowserStateM) :
    serverHandleAction ⟨id, "checkAvailability", a⟩ st now shot =
      serverHandleAction ⟨id, "openCalendar", b⟩ st now shot ∧
    (serverHandleAction ⟨id, "checkAvailability", a⟩ st now shot).2 =
      [.url_change "https://calendar.agent/view",
       .tool_result id (.jobj [("events", .jarr (st.currentEvents.map eventJson))]),
       .screenshot shot] ∧
    (simSwitch "checkAvailability" a s).2 = (simSwitch "checkAvailability" b s).2 ∧
    (simSwitch "checkAvailability" a s).2 =
      .jobj [("events", .jarr
        [eventJson ⟨"1", "Team Sync", "10:00 AM", ["Alice", "Bob"]⟩])] := by
  refine ⟨rfl, ?_, rfl, rfl⟩
  simp [serverHandleAction, hid]

/-- Witness: checkAvailability_ignores_date at concrete arguments. -/
theorem checkAvailability_ignores_date_witness :
    serverHandleAction ⟨"r1", "checkAvailability", { date := some "2025-01-01" }⟩
        initialServerState "100" "shot" =
      serverHandleAction ⟨"r1", "openCalendar", { date := some "2025-02-02" }⟩
        initialServerState "100" "shot" ∧
    (serverHandleAction ⟨"r1", "checkAvailability", { date := some "2025-01-01" }⟩
        initialServerState "100" "shot").2 =
      [.url_change "https://calendar.agent/view",
       .tool_result "r1"
         (.jobj [("events", .jarr (initialServerState.currentEvents.map eventJson))]),
       .screenshot "shot"] ∧
    (simSwitch "checkAvailability" { date := some "2025-01-01" } initialBrowserState).2 =
      (simSwitch "checkAvailability" { date := some "2025-02-02" } initialBrowserState).2 ∧
    (simSwitch "checkAvailability" { date := some "2025-01-01" } initialBrowserState).2 =
      .jobj [("events", .jarr
        [eventJson ⟨"1", "Team Sync", "10:00 AM", ["Alice", "Bob"]⟩])] :=
  checkAvailability_ignores_date initialServerState "r1" "100" "shot"
    (by decide) { date := some "2025-01-01" } { date := some "2025-02-02" }
    initialBrowserState

/-- C2 (amended): a dispatch of a tool name outside the known catalog
resolves with the explicit error {status: "error", message: "Tool not
found"} in the simulation path only; over a connected bridge the backend
falls through all of its branches and replies {status: "success"}, which
is what the dispatcher resolves with — no "tool not found" error. -/
theorem unknown_tool_dispatch (name : String) (hname : name ∉ knownTools)
    (args : Args) (s : BrowserStateM) (freshId : String) (hid : freshId ≠ "")
    (srv : ServerState) (now shot : String) :
    (simSwitch name args s).2 =
      .jobj [("status", .jstr "error"), ("message", .jstr "Tool not found")] ∧
    (connectedRoundTrip freshId name args s srv now shot).2.resolutions =
      [(freshId, .jobj [("status", .jstr "success")])] := by
  simp [knownTools] at hname
  obtain ⟨h1, h2, h3, h4, h5⟩ := hname
  constructor
  · simp [simSwitch, h1, h2, h3, h4, h5]
  · simp [connectedRoundTrip, executeTool, serverHandleAction, onBridgeMessage,
      hid, h1, h2, h3, h4, h5]

/-- Witness: unknown_tool_dispatch at the unknown tool name doMagic. -/
theorem unknown_tool_dispatch_witness :
    (simSwitch "doMagic" {} initialBrowserState).2 =
      .jobj [("status", .jstr "error"), ("message", .jstr "Tool not found")] ∧
    (connectedRoundTrip "r1" "doMagic" {} initialBrowserState
        initialServerState "100" "shot").2.resolutions =
      [("r1", .jobj [("status", .jstr "success")])] :=
  unknown_tool_dispatch "doMagic" (by decide) {} initialBrowserState "r1"
    (by decide) initialServerState "100" "shot"

/-- C2 counterexample: dispatching the unknown tool doMagic with the
bridge connected resolves with status "success" and no message field at
all, not with a "tool not found" error result. -/
theorem unknown_tool_connected_cex :
    ((connectedRoundTrip "r1" "doMagic" {} initialBrowserState
        initialServerState "100" "shot").2.resolutions.map
      (fun p => (p.1, p.2.getFieldStr "status", p.2.getFieldStr "message"))) =
      [("r1", some "success", none)] ∧
    some "success" ≠ some "error" :=
  ⟨rfl, by decide⟩

theorem serverHandleAction_bookMeeting (id now shot : String) (args : Args)
    (st : ServerState) (hid : id ≠ "") :
    serverHandleAction ⟨id, "bookMeeting", args⟩ st now shot =
      ({ st with currentEvents := st.currentEvents ++ [newEventOf now args] },
        [.log ("Booked meeting: " ++ (newEventOf now args).title),
         .tool_result id (.jobj [("status", .jstr "success"),
           ("bookedEvent", eventJson (newEventOf now args))]),
         .screenshot shot]) := by
  simp [serverHandleAction, hid]

/-- C3 (amended): with the bridge connected, dispatching bookMeeting sends
the action request carrying the given args; the backend appends the new
event built from title/time/attendees to its collection and replies with a
tool_result carrying the same id and {status: "success", bookedEvent}; the
dispatcher resolves with exactly that object and the loading indicator
clears when the trailing screenshot arrives.  The simulation path's result
instead has shape {status, booked} and carries no bookedEvent field. -/
theorem bookMeeting_dispatch (freshId : String) (hid : freshId ≠ "")
    (args : Args) (s : BrowserStateM) (srv : ServerState) (now shot : String) :
    (executeTool true freshId "bookMeeting" args s).1 =
      [⟨freshId, "bookMeeting", args⟩] ∧
    (connectedRoundTrip freshId "bookMeeting" args s srv now shot).1.currentEvents =
      srv.currentEvents ++ [newEventOf now args] ∧
    (connectedRoundTrip freshId "bookMeeting" args s srv now shot).2.resolutions =
      [(freshId, .jobj [("status", .jstr "success"),
        ("bookedEvent", eventJson (newEventOf now args))])] ∧
    (connectedRoundTrip freshId "bookMeeting" args s srv now shot).2.browser.isLoading =
      false ∧
    ((simSwitch "bookMeeting" args s).2).getFieldStr "status" = some "success" ∧
    ((simSwitch "bookMeeting" args s).2).hasField "bookedEvent" = false ∧
    ((simSwitch "bookMeeting" args s).2).getField "booked" =
      some (JValue.ofOptStr args.title) := by
  refine ⟨rfl, ?_, ?_, ?_, rfl, rfl, rfl⟩ <;>
    simp [connectedRoundTrip, executeTool, serverHandleAction_bookMeeting, hid,
      onBridgeMessage]

/-- Witness: bookMeeting_dispatch at the scenario's concrete arguments. -/
theorem bookMeeting_dispatch_witness :
    (executeTool true "r1" "bookMeeting"
        { title := some "Sync", time := some "3 PM", attendees := some "Ann,Bo" }
        initialBrowserState).1 =
      [⟨"r1", "bookMeeting",
        { title := some "Sync", time := some "3 PM", attendees := some "Ann,Bo" }⟩] ∧
    (connectedRoundTrip "r1" "bookMeeting"
        { title := some "Sync", time := some "3 PM", attendees := some "Ann,Bo" }
        initialBrowserState initialServerState "100" "shot").1.currentEvents =
      initialServerState.currentEvents ++
        [newEventOf "100"
          { title := some "Sync", time := some "3 PM", attendees := some "Ann,Bo" }] ∧
    (connectedRoundTrip "r1" "bookMeeting"
        { title := some "Sync", time := some "3 PM", attendees := some "Ann,Bo" }
        initialBrowserState initialServerState "100" "shot").2.resolutions =
      [("r1", .jobj [("status", .jstr "success"),
        ("bookedEvent", eventJson (newEventOf "100"
          { title := some "Sync", time := some "3 PM", attendees := some "Ann,Bo" }))])] ∧
    (connectedRoundTrip "r1" "bookMeeting"
        { title := some "Sync", time := some "3 PM", attendees := some "Ann,Bo" }
        initialBrowserState initialServerState "100" "shot").2.browser.isLoading =
      false ∧
    ((simSwitch "bookMeeting"
        { title := some "Sync", time := some "3 PM", attendees := some "Ann,Bo" }
        initialBrowserState).2).getFieldStr "status" = some "success" ∧
    ((simSwitch "bookMeeting"
        { title := some "Sync", time := some "3 PM", attendees := some "Ann,Bo" }
        initialBrowserState).2).hasField "bookedEvent" = false ∧
    ((simSwitch "bookMeeting"
        { title := some "Sync", time := some "3 PM", attendees := some "Ann,Bo" }
        initialBrowserState).2).getField "booked" =
      some (JValue.ofOptStr (some "Sync")) :=
  bookMeeting_dispatch "r1" (by decide)
    { title := some "Sync", time := some "3 PM", attendees := some "Ann,Bo" }
    initialBrowserState initialServerState "100" "shot"

/-- C3 counterexample: the simulated bookMeeting result carries a booked
field holding the title but no bookedEvent field, so the declared
{status, bookedEvent} result shape does not hold in the simulation path. -/
theorem bookMeeting_sim_shape_cex :
    ((simSwitch "bookMeeting" { title := some "Sync" } initialBrowserState).2).hasField
      "bookedEvent" = false ∧
    ((simSwitch "bookMeeting" { title := some "Sync" } initialBrowserState).2).getFieldStr
      "status" = some "success" ∧
    ((simSwitch "bookMeeting" { title := some "Sync" } initialBrowserState).2).getField
      "booked" = some (.jstr "Sync") :=
  ⟨rfl, rfl, rfl⟩

/-- C7 (amended): any known tool dispatched while the bridge is not
connected sends nothing on the bridge socket and resolves after the fixed
800 ms simulated delay with a canned result that does not depend on the
prior browser state; openCalendar, openEmail, checkAvailability, and
sendEmail update page and url to tool-determined values and clear the
loading flag, while bookMeeting leaves page and url unchanged and the
loading flag set. -/
theorem sim_dispatch_disconnected (args : Args) (s t : BrowserStateM)
    (freshId : String) :
    (∀ name, name ∈ knownTools →
      (executeTool false freshId name args s).1 = [] ∧
      ∃ r, (executeTool false freshId name args s).2.2 = .simulated 800 r ∧
        (executeTool false freshId name args t).2.2 = .simulated 800 r) ∧
    (executeTool false freshId "openCalendar" args s).2.1.page = "calendar" ∧
    (executeTool false freshId "openCalendar" args s).2.1.url =
      "https://calendar.agent/view" ∧
    (executeTool false freshId "openCalendar" args s).2.1.isLoading = false ∧
    (executeTool false freshId "openEmail" args s).2.1.page = "email" ∧
    (executeTool false freshId "openEmail" args s).2.1.url =
      "https://mail.agent/inbox" ∧
    (executeTool false freshId "openEmail" args s).2.1.isLoading = false ∧
    (executeTool false freshId "checkAvailability" args s).2.1.page = "calendar" ∧
    (executeTool false freshId "checkAvailability" args s).2.1.url =
      "https://calendar.agent/view" ∧
    (executeTool false freshId "checkAvailability" args s).2.1.isLoading = false ∧
    (executeTool false freshId "sendEmail" args s).2.1.page = "email" ∧
    (executeTool false freshId "sendEmail" args s).2.1.url =
      "https://mail.agent/sent" ∧
    (executeTool false freshId "sendEmail" args s).2.1.isLoading = false ∧
    (executeTool false freshId "bookMeeting" args s).2.1.page = s.page ∧
    (executeTool false freshId "bookMeeting" args s).2.1.url = s.url ∧
    (executeTool false freshId "bookMeeting" args s).2.1.isLoading = true := by
  refine ⟨?_, rfl, rfl, rfl, rfl, rfl, rfl, rfl, rfl, rfl, rfl, rfl, rfl,
    rfl, rfl, rfl⟩
  intro name hn
  simp [knownTools] at hn
  rcases hn with rfl | rfl | rfl | rfl | rfl <;> exact ⟨rfl, ⟨_, rfl, rfl⟩⟩

/-- C7 counterexample: the simulated bookMeeting dispatch leaves page and
url exactly as they were before, so there are no tool-determined page and
url values that every disconnected bookMeeting dispatch updates Browser
State to: two different prior states yield two different posterior
pages. -/
theorem sim_bookMeeting_no_update_cex :
    ¬ ∃ p u, ∀ s : BrowserStateM,
      (executeTool false "r1" "bookMeeting" { title := some "Sync" } s).2.1.page = p ∧
      (executeTool false "r1" "bookMeeting" { title := some "Sync" } s).2.1.url = u := by
  rintro ⟨p, u, h⟩
  have h1 := (h initialBrowserState).1
  have h2 := (h emailViewState).1
  simp [executeTool, simSwitch, initialBrowserState, emailViewState] at h1 h2
  rw [← h1] at h2
  exact absurd h2 (by decide)

end Spec2Proof
